import Mathlib

/-!
# Verification of the prism-did account, transaction and DID-derivation core

A shallow embedding of the prism-did repository's core logic:

* `crates/common/src/account.rs` — the `Account` state machine
  (`process_transaction`, `validate_transaction`, `validate_operation`,
  `process_operation`);
* `crates/common/src/operation.rs` — the `Operation` variants,
  `validate_basic`, the interop records `UnsignedPLCOp`/`SignedPLCOp`
  and `SignedPLCOp::derive_did`;
* `crates/common/src/transaction.rs` — the `Transaction` envelope, the
  conversions to and from the interop `DidTransaction` record and
  `verify_cbor_signature`;
* `crates/common/src/builder.rs` — the staged `CreateDIDRequestBuilder`
  and its local `encode_base32` helper.

Cryptographic key and signature types are the external capability the spec
declares out of scope: they are modelled as type parameters `K` and `S`
with decidable equality, and the key/signature string codecs
(`to_did`, `from_did`, `to_plc_signature`, base64url signature parsing)
as an abstract `KeyCodec` record of `Option`-valued functions, where
`none` models the unsupported-input case that the Rust code unwraps.

Machine integers: the account nonce is a Rust `u64`; no code path wraps
it (it is only compared and incremented), so it is modelled as `Nat`.
Byte sequences are `List Nat` with entries below 256.
-/

namespace PrismDid

/-- A service record, from `Service` in `account.rs`: a type tag and an
endpoint URL. -/
structure Service where
  service_type : String
  endpoint : String
deriving DecidableEq, Repr

/-- The well-known PDS service constructor `Service::new_pds`. -/
def Service.new_pds (endpoint : String) : Service :=
  { service_type := "AtprotoPersonalDataServer", endpoint := endpoint }

/-- The ledger account from `account.rs`. Rust's `HashMap` fields
(`verification_methods`, `services`) are modelled as association lists;
`HashMap::insert` becomes `mapInsert` below. -/
structure Account (K : Type) where
  did : String := ""
  nonce : Nat := 0
  verification_methods : List (String × K) := []
  rotation_keys : List K := []
  also_known_as : List String := []
  services : List (String × Service) := []
deriving DecidableEq, Repr

/-- Association-list update with `HashMap::insert` semantics: replace the
value at an existing key, otherwise add the binding. -/
def mapInsert {α : Type} (m : List (String × α)) (k : String) (v : α) :
    List (String × α) :=
  if m.any (fun p => p.1 = k) then
    m.map (fun p => if p.1 = k then (k, v) else p)
  else
    m ++ [(k, v)]

/-- The state-transition operations from `operation.rs`. The `CreateDID`
variant carries the non-prism signature field of the interop record. -/
inductive Operation (K S : Type) where
  | CreateAccount (id : String) (key : K)
  | CreateDID (did : String) (verification_methods : List (String × K))
      (rotation_keys : List K) (also_known_as : List String)
      (atproto_pds : String) (signature : S)
  | AddKey (key : K)
  | RevokeKey (key : K)
deriving DecidableEq, Repr

/-- The signed transaction envelope from `transaction.rs`. -/
structure Transaction (K S : Type) where
  id : String
  operation : Operation K S
  nonce : Nat
  signature : S
  vk : K
deriving DecidableEq, Repr

/-- Account-level errors. `prism_errors::AccountError` carries formatted
strings in some variants; here `NonceError` keeps its two numeric payloads
(transaction nonce, account nonce) and the variants produced by the
`anyhow!` string errors of `validate_operation` get their own
constructors. -/
inductive AccountError where
  | NonceError (txNonce : Nat) (accNonce : Nat)
  | AccountIdError (txId : String) (opId : String)
  | AccountKeyError
  | KeyAlreadyExists
  | KeyDoesNotExist
  | AccountAlreadyExists
deriving DecidableEq, Repr

/-- Decidable equality on `Except` results, for evaluating the embedded
functions on closed inputs. -/
instance {ε α : Type} [DecidableEq ε] [DecidableEq α] :
    DecidableEq (Except ε α) := fun x y =>
  match x, y with
  | .error a, .error b =>
    if h : a = b then .isTrue (by rw [h]) else .isFalse (by simp [h])
  | .ok a, .ok b =>
    if h : a = b then .isTrue (by rw [h]) else .isFalse (by simp [h])
  | .error _, .ok _ => .isFalse (by simp)
  | .ok _, .error _ => .isFalse (by simp)

variable {K S : Type}

/-- Account emptiness, `Account::is_empty`: the nonce is zero. -/
def Account.is_empty (a : Account K) : Bool :=
  a.nonce = 0

/-- Transaction-level validation, `Account::validate_transaction` as
compiled: the nonce must match exactly; for `CreateAccount` the
transaction id and verifying key must equal the operation's. For every
other operation the source's id check (`TransactionIdError`), rotation-key
membership check (`InvalidKey`) and the call to `tx.verify_signature()`
are commented out in `account.rs` (lines 152-168, marked
`TODO(DID): reactivate`), so the compiled function performs no check at
all on that branch — this embedding follows the compiled code. -/
def Account.validate_transaction [DecidableEq K] (a : Account K)
    (tx : Transaction K S) : Except AccountError Unit :=
  if tx.nonce ≠ a.nonce then
    .error (.NonceError tx.nonce a.nonce)
  else
    match tx.operation with
    | .CreateAccount id key =>
      if tx.id ≠ id then .error (.AccountIdError tx.id id)
      else if tx.vk ≠ key then .error .AccountKeyError
      else .ok ()
    | _ => .ok ()

/-- Operation-level validation, `Account::validate_operation`: `AddKey`
fails when the key is already a rotation key, `RevokeKey` when it is not,
and both creation operations fail on a non-empty account. -/
def Account.validate_operation [DecidableEq K] (a : Account K)
    (op : Operation K S) : Except AccountError Unit :=
  match op with
  | .AddKey key =>
    if key ∈ a.rotation_keys then .error .KeyAlreadyExists else .ok ()
  | .RevokeKey key =>
    if key ∈ a.rotation_keys then .ok () else .error .KeyDoesNotExist
  | .CreateDID _ _ _ _ _ _ =>
    if a.is_empty then .ok () else .error .AccountAlreadyExists
  | .CreateAccount _ _ =>
    if a.is_empty then .ok () else .error .AccountAlreadyExists

/-- The state mutation performed by the match arms of
`Account::process_operation` once validation has passed: `AddKey` pushes,
`RevokeKey` retains the non-matching keys, `CreateDID` installs the
identity-document fields and the PDS service record, `CreateAccount` sets
the id and pushes the seed key. -/
def Account.apply_operation [DecidableEq K] (a : Account K)
    (op : Operation K S) : Account K :=
  match op with
  | .AddKey key =>
    { a with rotation_keys := a.rotation_keys ++ [key] }
  | .RevokeKey key =>
    { a with rotation_keys := a.rotation_keys.filter (fun k => k ≠ key) }
  | .CreateDID did vms rks aka pds _ =>
    { a with
      did := did
      also_known_as := aka
      rotation_keys := rks
      verification_methods := vms
      services := mapInsert a.services "atproto_pds" (Service.new_pds pds) }
  | .CreateAccount id key =>
    { a with did := id, rotation_keys := a.rotation_keys ++ [key] }

/-- Operation processing, `Account::process_operation`: validate, then
mutate. Every match arm of the mutation is total, so no error can occur
after the state has started changing. -/
def Account.process_operation [DecidableEq K] (a : Account K)
    (op : Operation K S) : Except AccountError (Account K) :=
  match a.validate_operation op with
  | .error e => .error e
  | .ok () => .ok (a.apply_operation op)

/-- Transaction processing, `Account::process_transaction`: validate the
transaction, process the operation, then increment the nonce by one. -/
def Account.process_transaction [DecidableEq K] (a : Account K)
    (tx : Transaction K S) : Except AccountError (Account K) :=
  match a.validate_transaction tx with
  | .error e => .error e
  | .ok () =>
    match a.process_operation tx.operation with
    | .error e => .error e
    | .ok a' => .ok { a' with nonce := a'.nonce + 1 }

/-- The mutable-state trace of `process_transaction`: the Rust method
mutates `self` in place, so this returns the account value left behind by
the call together with its error, following the source's control flow
statement by statement. Validation performs no mutation; the mutation in
`process_operation` happens only after `validate_operation` has passed
and cannot fail; the nonce increment is last. -/
def Account.process_transaction_mut [DecidableEq K] (a : Account K)
    (tx : Transaction K S) : Account K × Option AccountError :=
  match a.validate_transaction tx with
  | .error e => (a, some e)
  | .ok () =>
    match a.validate_operation tx.operation with
    | .error e => (a, some e)
    | .ok () =>
      let a' := a.apply_operation tx.operation
      ({ a' with nonce := a'.nonce + 1 }, none)

/-! ## Basic operation validity and builder errors -/

/-- Context-free operation errors from `prism_errors::OperationError` as
used by `Operation::validate_basic`. -/
inductive OperationError where
  | EmptyAccountId
  | DataTooLarge (bound : Nat)
  | InvalidPLCConversion
deriving DecidableEq, Repr

/-- Transaction construction errors from `prism_errors::TransactionError`.
The Rust `InvalidOp` variant carries a formatted source error string; here
it carries the structured operation error when it wraps a `validate_basic`
failure, and the separate constructor `VerificationFailed` stands for the
`InvalidOp(e.to_string())` produced when signature verification fails. -/
inductive TransactionError where
  | MissingKey
  | SigningFailed
  | EncodingFailed
  | InvalidOp (e : OperationError)
  | VerificationFailed
  | InvalidNonce (n : Nat)
  | MissingSender
deriving DecidableEq, Repr

/-- Context-free sanity check `Operation::validate_basic`: `CreateAccount`
needs a non-empty id; `CreateDID` needs at most 10 verification methods
and a non-empty rotation-key set; `AddKey` and `RevokeKey` always pass. -/
def Operation.validate_basic (op : Operation K S) :
    Except OperationError Unit :=
  match op with
  | .CreateAccount id _ =>
    if id = "" then .error .EmptyAccountId else .ok ()
  | .CreateDID _ vms rks _ _ _ =>
    if vms.length > 10 then .error (.DataTooLarge 10)
    else if rks.isEmpty then .error .EmptyAccountId
    else .ok ()
  | .AddKey _ => .ok ()
  | .RevokeKey _ => .ok ()

/-! ## The CreateDID request builder, from `builder.rs`

The `builder.rs` in this snapshot constructs its `Operation::CreateDID`
without the `signature` field that `operation.rs` declares — the two files
come from different revisions of the schema (the spec's section 9 records
this evolution). The builder is therefore modelled against the operation
shape it actually constructs: an unsigned CreateDID payload. -/

/-- The unsigned CreateDID payload as constructed by
`CreateDIDRequestBuilder::build` (no signature field). -/
structure BuilderCreateDIDOp (K : Type) where
  did : String
  verification_methods : List (String × K)
  rotation_keys : List K
  also_known_as : List String
  atproto_pds : String
deriving DecidableEq, Repr

/-- The `CreateDID` arm of `validate_basic`, applied to the builder's
operation shape. -/
def BuilderCreateDIDOp.validate_basic (op : BuilderCreateDIDOp K) :
    Except OperationError Unit :=
  if op.verification_methods.length > 10 then .error (.DataTooLarge 10)
  else if op.rotation_keys.isEmpty then .error .EmptyAccountId
  else .ok ()

/-- The partial prism transaction awaiting a signature,
`UnsignedTransaction` from `transaction.rs`, over either operation
shape. -/
structure UnsignedTx (Op : Type) where
  id : String
  operation : Op
  nonce : Nat
deriving DecidableEq, Repr

/-- The alphabet of the local `encode_base32` helper in `builder.rs`:
the UPPERCASE RFC 4648 alphabet. -/
def encodeBase32Alphabet : List Char :=
  "ABCDEFGHIJKLMNOPQRSTUVWXYZ234567".data

/-- The inner while-loop of the bit-buffer base32 encoders: extract 5-bit
chunks from the top of the buffer while at least 5 bits remain; the fuel
argument bounds the iteration count (the callers pass the bit count, which
strictly decreases by 5 each step). Returns the remaining bit count and
the accumulated characters. -/
def b32Extract (alphabet : List Char) : Nat → Nat → Nat → List Char →
    Nat × List Char
  | 0, _, bits, acc => (bits, acc)
  | fuel + 1, buffer, bits, acc =>
    if 5 ≤ bits then
      let index := (buffer >>> (bits - 5)) &&& 0x1F
      b32Extract alphabet fuel buffer (bits - 5)
        (acc ++ [alphabet.getD index 'A'])
    else (bits, acc)

/-- The hand-rolled `encode_base32` helper in `builder.rs`: a bit-buffer
base32 encoder over the UPPERCASE alphabet. The `u64` buffer is modelled
with an explicit reduction modulo 2 to the 64 (Rust's shift discards the
bits shifted out). The Rust trailing loop
`while result.len().is_multiple_of(8) { result.push('=') }` executes its
body at most once, since one push breaks the condition; it is rendered as
the final conditional. -/
def encode_base32 (data : List Nat) : String :=
  if data = [] then "" else
  let step := fun (st : Nat × Nat × List Char) (byte : Nat) =>
    let buffer := ((st.1 <<< 8) ||| byte) % (2 ^ 64)
    let bits := st.2.1 + 8
    let ex := b32Extract encodeBase32Alphabet bits buffer bits st.2.2
    (buffer, ex.1, ex.2)
  let st := data.foldl step (0, 0, [])
  let res :=
    if 0 < st.2.1 then
      st.2.2 ++
        [encodeBase32Alphabet.getD (((st.1 <<< (5 - st.2.1)) % 2 ^ 64) &&& 0x1F) 'A']
    else st.2.2
  let res := if res.length % 8 = 0 then res ++ ['='] else res
  String.mk res

/-- The state accumulated by `CreateDIDRequestBuilder`: its `did` field is
initialized empty by `new` and no setter writes to it. -/
structure CreateDIDBuilder (K : Type) where
  did : String
  verification_methods : List (String × K)
  rotation_keys : List K
  also_known_as : List String
  atproto_pds : String
deriving DecidableEq, Repr

/-- The builder constructor `CreateDIDRequestBuilder::new`. -/
def CreateDIDBuilder.new : CreateDIDBuilder K :=
  { did := ""
    verification_methods := []
    rotation_keys := []
    also_known_as := []
    atproto_pds := "" }

/-- Setter `with_verification_method`: HashMap insert. -/
def CreateDIDBuilder.with_verification_method (b : CreateDIDBuilder K)
    (id : String) (key : K) : CreateDIDBuilder K :=
  { b with verification_methods := mapInsert b.verification_methods id key }

/-- Setter `with_rotation_keys`: replaces the list. -/
def CreateDIDBuilder.with_rotation_keys (b : CreateDIDBuilder K)
    (keys : List K) : CreateDIDBuilder K :=
  { b with rotation_keys := keys }

/-- Setter `with_also_known_as`: pushes an alias. -/
def CreateDIDBuilder.with_also_known_as (b : CreateDIDBuilder K)
    (alias_ : String) : CreateDIDBuilder K :=
  { b with also_known_as := b.also_known_as ++ [alias_] }

/-- Setter `with_atproto_pds`: sets the endpoint. -/
def CreateDIDBuilder.with_atproto_pds (b : CreateDIDBuilder K)
    (pds : String) : CreateDIDBuilder K :=
  { b with atproto_pds := pds }

/-- One application of any of the four builder setters. -/
inductive BuilderSetter (K : Type) where
  | verificationMethod (id : String) (key : K)
  | rotationKeys (keys : List K)
  | alsoKnownAs (alias_ : String)
  | atprotoPds (pds : String)

/-- Apply a sequence of setters to a builder state. -/
def CreateDIDBuilder.applySetters (b : CreateDIDBuilder K) :
    List (BuilderSetter K) → CreateDIDBuilder K
  | [] => b
  | s :: rest =>
    (match s with
     | .verificationMethod id key => b.with_verification_method id key
     | .rotationKeys keys => b.with_rotation_keys keys
     | .alsoKnownAs a => b.with_also_known_as a
     | .atprotoPds p => b.with_atproto_pds p).applySetters rest

/-- `CreateDIDRequestBuilder::build`, parameterized by `opDigest`, the
composition `Digest::hash(operation.encode_to_bytes())` of the content
hash (the `digest` module is not part of this snapshot's sources) with the
serde encoding of the native operation (which depends on the external key
capability's serialization); both are outside the embedded sources, so the
32-byte digest of the provisional operation is abstracted as a function
argument. Everything else follows the source: a provisional operation with
an empty did is constructed, its digest is encoded with the local
UPPERCASE `encode_base32`, `split_off(24)` keeps the first 24 characters,
the literal prefix is prepended, the operation is re-emitted with the
derived did, `validate_basic` runs, and the emitted unsigned transaction
takes its `id` from the builder's (never written) `did` field. -/
def CreateDIDBuilder.build (b : CreateDIDBuilder K)
    (opDigest : BuilderCreateDIDOp K → List Nat) :
    Except TransactionError (UnsignedTx (BuilderCreateDIDOp K)) :=
  let operation : BuilderCreateDIDOp K :=
    { did := ""
      verification_methods := b.verification_methods
      rotation_keys := b.rotation_keys
      also_known_as := b.also_known_as
      atproto_pds := b.atproto_pds }
  let op_hash := opDigest operation
  let b32 := String.mk ((encode_base32 op_hash).data.take 24)
  let did := "did:prism:" ++ b32
  let operation2 := { operation with did := did }
  match operation2.validate_basic with
  | .error e => .error (.InvalidOp e)
  | .ok () =>
    .ok { id := b.did, operation := operation2, nonce := 0 }

/-! ## Byte-level primitives: UTF-8, SHA-256, RFC 4648 base32

Modelled from the spec: the repository's `digest` module (the system
content hash, `Digest::hash`) is not among this snapshot's sources, and
the deterministic binary encoding is delegated to the external
`serde_ipld_dagcbor` and `base32` crates. The spec fixes them as "the
system's content hash function", "canonically serialize ... to a
deterministic binary form" with "the external method's deterministic
map-key ordering", and "base32-encode (lowercase RFC4648, no padding)".
They are realized here as SHA-256, the DAG-CBOR core encoding with
length-then-bytewise map-key ordering, and the standard lowercase
RFC 4648 alphabet; the two pinned test vectors of `tests/mod.rs`
discriminate these choices bit-exactly. -/

/-- UTF-8 encoding of one character. -/
def utf8EncodeChar (c : Char) : List Nat :=
  let n := c.toNat
  if n < 0x80 then [n]
  else if n < 0x800 then
    [0xC0 ||| (n >>> 6), 0x80 ||| (n &&& 0x3F)]
  else if n < 0x10000 then
    [0xE0 ||| (n >>> 12), 0x80 ||| ((n >>> 6) &&& 0x3F), 0x80 ||| (n &&& 0x3F)]
  else
    [0xF0 ||| (n >>> 18), 0x80 ||| ((n >>> 12) &&& 0x3F),
     0x80 ||| ((n >>> 6) &&& 0x3F), 0x80 ||| (n &&& 0x3F)]

/-- UTF-8 bytes of a string. -/
def strBytes (s : String) : List Nat :=
  (s.data.map utf8EncodeChar).flatten

/-- Right rotation within 32 bits. -/
def rotr32 (x n : Nat) : Nat :=
  ((x >>> n) ||| (x <<< (32 - n))) % 2 ^ 32

/-- SHA-256 lowercase sigma 0. -/
def shaSigma0 (x : Nat) : Nat :=
  (rotr32 x 7) ^^^ (rotr32 x 18) ^^^ (x >>> 3)

/-- SHA-256 lowercase sigma 1. -/
def shaSigma1 (x : Nat) : Nat :=
  (rotr32 x 17) ^^^ (rotr32 x 19) ^^^ (x >>> 10)

/-- SHA-256 uppercase Sigma 0. -/
def shaBigSigma0 (x : Nat) : Nat :=
  (rotr32 x 2) ^^^ (rotr32 x 13) ^^^ (rotr32 x 22)

/-- SHA-256 uppercase Sigma 1. -/
def shaBigSigma1 (x : Nat) : Nat :=
  (rotr32 x 6) ^^^ (rotr32 x 11) ^^^ (rotr32 x 25)

/-- The 64 SHA-256 round constants (FIPS 180-4, written in decimal). -/
def shaK : List Nat :=
  [1116352408, 1899447441, 3049323471, 3921009573, 961987163,
   1508970993, 2453635748, 2870763221, 3624381080, 310598401,
   607225278, 1426881987, 1925078388, 2162078206, 2614888103,
   3248222580, 3835390401, 4022224774, 264347078, 604807628,
   770255983, 1249150122, 1555081692, 1996064986, 2554220882,
   2821834349, 2952996808, 3210313671, 3336571891, 3584528711,
   113926993, 338241895, 666307205, 773529912, 1294757372,
   1396182291, 1695183700, 1986661051, 2177026350, 2456956037,
   2730485921, 2820302411, 3259730800, 3345764771, 3516065817,
   3600352804, 4094571909, 275423344, 430227734, 506948616,
   659060556, 883997877, 958139571, 1322822218, 1537002063,
   1747873779, 1955562222, 2024104815, 2227730452, 2361852424,
   2428436474, 2756734187, 3204031479, 3329325298]

/-- The SHA-256 initial hash values (FIPS 180-4, written in decimal). -/
def shaH0 : List Nat :=
  [1779033703, 3144134277, 1013904242, 2773480762,
   1359893119, 2600822924, 528734635, 1541459225]

/-- SHA-256 padding: append 0x80, zero bytes to 56 mod 64, and the
64-bit big-endian bit length. -/
def sha256Pad (msg : List Nat) : List Nat :=
  let L := msg.length
  let k := (64 - ((L + 9) % 64)) % 64
  msg ++ [0x80] ++ List.replicate k 0 ++
    (List.range 8).map (fun i => ((8 * L) >>> (8 * (7 - i))) &&& 0xFF)

/-- Split a byte list into 64-byte blocks; the fuel bounds the recursion
and is instantiated with the list length. -/
def chunksOf64 : Nat → List Nat → List (List Nat)
  | 0, _ => []
  | _, [] => []
  | fuel + 1, l => l.take 64 :: chunksOf64 fuel (l.drop 64)

/-- Big-endian 32-bit words of a byte list. -/
def toWords : List Nat → List Nat
  | b0 :: b1 :: b2 :: b3 :: rest =>
    ((((b0 <<< 8) ||| b1) <<< 8 ||| b2) <<< 8 ||| b3) :: toWords rest
  | _ => []

/-- Extend the 16-word message schedule to 64 words; the fuel is the
number of words still to append (48). -/
def extendSchedule : Nat → List Nat → List Nat
  | 0, w => w
  | fuel + 1, w =>
    let i := w.length
    let next := (shaSigma1 (w.getD (i - 2) 0) + w.getD (i - 7) 0 +
      shaSigma0 (w.getD (i - 15) 0) + w.getD (i - 16) 0) % 2 ^ 32
    extendSchedule fuel (w ++ [next])

/-- The SHA-256 working variables. -/
structure ShaState where
  a : Nat
  b : Nat
  c : Nat
  d : Nat
  e : Nat
  f : Nat
  g : Nat
  h : Nat

/-- One SHA-256 compression round on (round constant, schedule word). -/
def shaRound (st : ShaState) (kw : Nat × Nat) : ShaState :=
  let ch := (st.e &&& st.f) ^^^ ((st.e ^^^ 0xFFFFFFFF) &&& st.g)
  let t1 := (st.h + shaBigSigma1 st.e + ch + kw.1 + kw.2) % 2 ^ 32
  let maj := (st.a &&& st.b) ^^^ (st.a &&& st.c) ^^^ (st.b &&& st.c)
  let t2 := (shaBigSigma0 st.a + maj) % 2 ^ 32
  { a := (t1 + t2) % 2 ^ 32
    b := st.a
    c := st.b
    d := st.c
    e := (st.d + t1) % 2 ^ 32
    f := st.e
    g := st.f
    h := st.g }

/-- Compress one 64-byte block into the running hash values. -/
def shaCompress (hs : List Nat) (block : List Nat) : List Nat :=
  let w := extendSchedule 48 (toWords block)
  let st0 : ShaState :=
    { a := hs.getD 0 0, b := hs.getD 1 0, c := hs.getD 2 0
      d := hs.getD 3 0, e := hs.getD 4 0, f := hs.getD 5 0
      g := hs.getD 6 0, h := hs.getD 7 0 }
  let fin := (shaK.zip w).foldl shaRound st0
  [(hs.getD 0 0 + fin.a) % 2 ^ 32, (hs.getD 1 0 + fin.b) % 2 ^ 32,
   (hs.getD 2 0 + fin.c) % 2 ^ 32, (hs.getD 3 0 + fin.d) % 2 ^ 32,
   (hs.getD 4 0 + fin.e) % 2 ^ 32, (hs.getD 5 0 + fin.f) % 2 ^ 32,
   (hs.getD 6 0 + fin.g) % 2 ^ 32, (hs.getD 7 0 + fin.h) % 2 ^ 32]

/-- SHA-256 of a byte list, as its 32 digest bytes. -/
def sha256 (msg : List Nat) : List Nat :=
  let padded := sha256Pad msg
  let blocks := chunksOf64 padded.length padded
  let hs := blocks.foldl shaCompress shaH0
  (hs.map (fun w =>
    [(w >>> 24) &&& 0xFF, (w >>> 16) &&& 0xFF, (w >>> 8) &&& 0xFF,
     w &&& 0xFF])).flatten

/-- The lowercase RFC 4648 base32 alphabet, as used by the external
base32 crate's Rfc4648Lower and required by the spec's section 4.3. -/
def b32LowerAlphabet : List Char :=
  "abcdefghijklmnopqrstuvwxyz234567".data

/-- Lowercase RFC 4648 base32 without padding: the encoding
`base32::encode(Alphabet::Rfc4648Lower { padding: false }, _)` used by
`SignedPLCOp::derive_did`, and the encoding the spec's section 4.3
prescribes for DID derivation. Same 5-bit stream as any RFC 4648
encoder, rendered over the lowercase alphabet with no '=' padding. -/
def base32Rfc4648Lower (data : List Nat) : String :=
  let step := fun (st : Nat × Nat × List Char) (byte : Nat) =>
    let buffer := (st.1 <<< 8) ||| (byte % 256)
    let bits := st.2.1 + 8
    let ex := b32Extract b32LowerAlphabet bits buffer bits st.2.2
    (buffer, ex.1, ex.2)
  let st := data.foldl step (0, 0, [])
  let res :=
    if 0 < st.2.1 then
      st.2.2 ++ [b32LowerAlphabet.getD ((st.1 <<< (5 - st.2.1)) &&& 0x1F) 'a']
    else st.2.2
  String.mk res

/-! ## The interop canonical records and DAG-CBOR encoding -/

/-- The unsigned interop record `UnsignedPLCOp` from `operation.rs`
(string-encoded keys, camelCase serialization names, an always-absent
`prev` link). The Rust `HashMap` fields are association lists here; the
canonical encoding below sorts the keys, so the list order is
immaterial for hashing. -/
structure UnsignedPLCOp where
  type_ : String
  rotation_keys : List String
  verification_methods : List (String × String)
  also_known_as : List String
  services : List (String × Service)
  prev : Option String
deriving DecidableEq, Repr

/-- The signed interop record `SignedPLCOp`: the unsigned record's fields
flattened together with the base64url signature string `sig`. -/
structure SignedPLCOp where
  unsigned : UnsignedPLCOp
  sig : String
deriving DecidableEq, Repr

/-- Modelled from the spec: `UnsignedPLCOp::new_genesis` is called by
`transaction.rs` but defined outside this snapshot's sources. Per the
spec's section 4.3 the conversion "re-encodes every key as a DID-key
string and wraps the PDS endpoint into the standard service map", with
`prev` always absent — exactly the construction the in-source
`TryFrom<&Operation> for SignedPLCOp` in `operation.rs` spells out. -/
def UnsignedPLCOp.new_genesis (rotation_keys : List String)
    (verification_methods : List (String × String))
    (also_known_as : List String) (atproto_pds : String) : UnsignedPLCOp :=
  { type_ := "plc_operation"
    rotation_keys := rotation_keys
    verification_methods := verification_methods
    also_known_as := also_known_as
    services := [("atproto_pds", Service.new_pds atproto_pds)]
    prev := none }

/-- CBOR header for a major type and argument, minimal-length as DAG-CBOR
requires (arguments up to 64 bits). -/
def cborHeader (major : Nat) (n : Nat) : List Nat :=
  if n < 24 then [major * 32 + n]
  else if n < 2 ^ 8 then [major * 32 + 24, n]
  else if n < 2 ^ 16 then [major * 32 + 25, (n >>> 8) &&& 0xFF, n &&& 0xFF]
  else if n < 2 ^ 32 then
    [major * 32 + 26, (n >>> 24) &&& 0xFF, (n >>> 16) &&& 0xFF,
     (n >>> 8) &&& 0xFF, n &&& 0xFF]
  else
    [major * 32 + 27, (n >>> 56) &&& 0xFF, (n >>> 48) &&& 0xFF,
     (n >>> 40) &&& 0xFF, (n >>> 32) &&& 0xFF, (n >>> 24) &&& 0xFF,
     (n >>> 16) &&& 0xFF, (n >>> 8) &&& 0xFF, n &&& 0xFF]

/-- CBOR text string (major type 3). -/
def cborString (s : String) : List Nat :=
  cborHeader 3 (strBytes s).length ++ strBytes s

/-- CBOR unsigned integer (major type 0). -/
def cborUInt (n : Nat) : List Nat :=
  cborHeader 0 n

/-- CBOR array (major type 4) of already-encoded items. -/
def cborArray (items : List (List Nat)) : List Nat :=
  cborHeader 4 items.length ++ items.flatten

/-- CBOR null. -/
def cborNull : List Nat := [0xF6]

/-- Bytewise lexicographic order on byte lists. -/
def bytesLt : List Nat → List Nat → Bool
  | [], [] => false
  | [], _ :: _ => true
  | _ :: _, [] => false
  | a :: as, b :: bs =>
    if a < b then true else if b < a then false else bytesLt as bs

/-- The DAG-CBOR map-key order: shorter UTF-8 key first, ties broken
bytewise. -/
def dagKeyLt (a b : String) : Bool :=
  if (strBytes a).length < (strBytes b).length then true
  else if (strBytes b).length < (strBytes a).length then false
  else bytesLt (strBytes a) (strBytes b)

/-- Insert one (key, encoded value) pair into a key-sorted list. -/
def insertSortedPair (p : String × List Nat) :
    List (String × List Nat) → List (String × List Nat)
  | [] => [p]
  | q :: rest =>
    if dagKeyLt p.1 q.1 then p :: q :: rest else q :: insertSortedPair p rest

/-- Sort (key, encoded value) pairs into the DAG-CBOR key order. -/
def sortPairs (l : List (String × List Nat)) : List (String × List Nat) :=
  l.foldr insertSortedPair []

/-- CBOR map (major type 5) over the given entries, keys serialized as
text strings in the DAG-CBOR canonical order. -/
def cborMap (pairs : List (String × List Nat)) : List Nat :=
  cborHeader 5 pairs.length ++
    ((sortPairs pairs).map (fun p => cborString p.1 ++ p.2)).flatten

/-- DAG-CBOR encoding of a `Service` value (serde names: "type",
"endpoint"). -/
def Service.cborEncode (s : Service) : List Nat :=
  cborMap [("type", cborString s.service_type),
           ("endpoint", cborString s.endpoint)]

/-- DAG-CBOR encoding of an optional string (`prev`). -/
def cborOptString : Option String → List Nat
  | none => cborNull
  | some s => cborString s

/-- DAG-CBOR encoding of a `SignedPLCOp`: serde flattens the unsigned
record's camelCase fields into one map together with "sig". -/
def SignedPLCOp.cborEncode (op : SignedPLCOp) : List Nat :=
  cborMap
    [("type", cborString op.unsigned.type_),
     ("rotationKeys", cborArray (op.unsigned.rotation_keys.map cborString)),
     ("verificationMethods",
       cborMap (op.unsigned.verification_methods.map
         (fun p => (p.1, cborString p.2)))),
     ("alsoKnownAs", cborArray (op.unsigned.also_known_as.map cborString)),
     ("services",
       cborMap (op.unsigned.services.map (fun p => (p.1, p.2.cborEncode)))),
     ("prev", cborOptString op.unsigned.prev),
     ("sig", cborString op.sig)]

/-- The DID derivation `SignedPLCOp::derive_did`: hash the canonical
DAG-CBOR serialization of the signed record with the content hash,
base32-encode the digest (lowercase RFC 4648, no padding), keep the first
24 characters and prepend the literal prefix. The source indexes
`b32[0..24]`, in range because a 32-byte digest encodes to 52
characters. -/
def SignedPLCOp.derive_did (op : SignedPLCOp) : String :=
  let cborVal := op.cborEncode
  let hash := sha256 cborVal
  let b32 := base32Rfc4648Lower hash
  "did:prism:" ++ String.mk (b32.data.take 24)

/-- The fixed interop record of `test_did_creation` in `tests/mod.rs`:
two rotation DID-keys, the "atproto" verification method, the alias
at://mod-authority.test, the PDS endpoint http://localhost:65473 and the
given base64url signature. -/
def testVectorPLC : SignedPLCOp :=
  { unsigned :=
    { type_ := "plc_operation"
      rotation_keys :=
        ["did:key:zQ3shYUkjUJWLxshqnPbDb1bwc2wMeRy65yQ7TdeotDRoA54G",
         "did:key:zQ3shZUHZuc3Z74mmMhZG2FS87oLqdiHBJyrv5vSc4tychPZF"]
      verification_methods :=
        [("atproto",
          "did:key:zQ3shRqHqyhXgCjBmLyPhwN6ENSLMYCVUS7684MKrmVunRF8H")]
      also_known_as := ["at://mod-authority.test"]
      services :=
        [("atproto_pds", Service.new_pds "http://localhost:65473")]
      prev := none }
    sig := "F0_AgX0tghOjtCMPsMGxHP-8JL11GiR8ikgf68XofQAa1vgEZvEe9VBWFko8isAjT5pkcZOf0GBPAq1cujBNHw" }

/-- The second fixed interop record, from `plc_signature_verification`
in `tests/mod.rs`. -/
def testVectorPLC2 : SignedPLCOp :=
  { unsigned :=
    { type_ := "plc_operation"
      rotation_keys :=
        ["did:key:zQ3shcmbGVVFBmW8kM1ffcrmPDFB8u4YFxWH7gemf6SpsGNzL",
         "did:key:zQ3shYxgqcVTCgB5z21jid9vfJy1GkFUySPMzLQDPUtdN5qPe"]
      verification_methods :=
        [("atproto",
          "did:key:zQ3shnpPSGRJGPFVNYZSrrz4CHjqW5eFau6gsGXFrdmsJ4axx")]
      also_known_as := ["at://mod-authority.test"]
      services :=
        [("atproto_pds", Service.new_pds "http://localhost:49793")]
      prev := none }
    sig := "yFKwHXi1q5if7hhyYjp5boUx-IrgEDzslnQl-fwwGNsr0Mrbcgkkgjxo_H8v6SW7i2IgVNUPmM-VStgTPIu0mQ" }

/-! ## Conversions between the native transaction and the interop record -/

/-- The abstract key and signature string codecs of the external
key/signature capability: DID-key rendering and parsing of verifying
keys, and the PLC (unpadded URL-safe base64) rendering and parsing of
signatures. A result of `none` models the failure case — unsupported key
algorithm, undecodable string — that the Rust call sites unwrap. The
Rust parse direction is the composition of base64url decoding with
`Signature::from_algorithm_and_bytes(Secp256k1, _)`; it is abstracted as
a single function. -/
structure KeyCodec (K S : Type) where
  toDid : K → Option String
  fromDid : String → Option K
  toPlcSignature : S → Option String
  fromPlcSignature : String → Option S

/-- Apply an Option-valued function to every element, succeeding only
when every application succeeds (the sequence of unwrapped `map` calls in
the Rust conversions). -/
def traverseOption {α β : Type} (f : α → Option β) : List α → Option (List β)
  | [] => some []
  | x :: rest =>
    match f x, traverseOption f rest with
    | some y, some ys => some (y :: ys)
    | _, _ => none

/-- Apply an Option-valued function to the value of every pair. -/
def traversePairs {α β : Type} (f : α → Option β) :
    List (String × α) → Option (List (String × β))
  | [] => some []
  | p :: rest =>
    match f p.2, traversePairs f rest with
    | some y, some ys => some ((p.1, y) :: ys)
    | _, _ => none

/-- First value bound to a key in an association list (HashMap get). -/
def mapGet {α : Type} : List (String × α) → String → Option α
  | [], _ => none
  | p :: rest, k => if p.1 = k then some p.2 else mapGet rest k

/-- The interop wire transaction `DidTransaction` from `transaction.rs`:
the operation's derived did, the signed interop record, the nonce, and
the detached signature and verifying key as strings. -/
structure DidTransaction where
  did : String
  operation : SignedPLCOp
  nonce : Nat
  signature : String
  vk : String
deriving DecidableEq, Repr

/-- The unsigned projection `USDidTransaction` of a `DidTransaction`
(drops signature and vk). -/
structure USDidTransaction where
  did : String
  operation : SignedPLCOp
  nonce : Nat
deriving DecidableEq, Repr

/-- The `From<DidTransaction> for USDidTransaction` projection. -/
def DidTransaction.toUnsigned (tx : DidTransaction) : USDidTransaction :=
  { did := tx.did, operation := tx.operation, nonce := tx.nonce }

/-- The error of the failing branch of the conversions in
`transaction.rs` (an InvalidData io::Error with message
"Invalid operation"). -/
inductive ConvError where
  | InvalidOperation
deriving DecidableEq, Repr

/-- The forward conversion `TryInto<DidTransaction> for Transaction`.
The outer `Option` layer models the `.unwrap()` calls inside the Rust
body on the key and signature codecs: `none` means the conversion dies
before returning. `some (.error _)` is the returned `Err` on a
non-CreateDID operation, `some (.ok _)` the successful record: the wire
`did` is taken from the OPERATION's did field (the transaction's own `id`
is dropped), the operation's embedded signature is re-encoded once and
used both as the record's `sig` and as the wire `signature` (the
transaction's envelope signature is dropped as well). -/
def Transaction.try_into_did (C : KeyCodec K S) (tx : Transaction K S) :
    Option (Except ConvError DidTransaction) :=
  match tx.operation with
  | .CreateDID did vms rks aka pds sig =>
    match traversePairs C.toDid vms, traverseOption C.toDid rks,
        C.toPlcSignature sig, C.toDid tx.vk with
    | some vms', some rks', some plcSig, some vk' =>
      some (.ok
        { did := did
          operation :=
            { unsigned := UnsignedPLCOp.new_genesis rks' vms' aka pds
              sig := plcSig }
          nonce := tx.nonce
          signature := plcSig
          vk := vk' })
    | _, _, _, _ => none
  | _ => some (.error .InvalidOperation)

/-- The backward conversion `TryInto<Transaction> for DidTransaction`,
with `none` again modelling the unwrapped codec failures: parse every
key back from its DID string, read the PDS endpoint out of the
"atproto_pds" service entry, parse both signature strings, and set BOTH
the transaction id and the operation's did to the wire `did`. -/
def DidTransaction.try_into_native (C : KeyCodec K S)
    (d : DidTransaction) : Option (Transaction K S) :=
  match traversePairs C.fromDid d.operation.unsigned.verification_methods,
      traverseOption C.fromDid d.operation.unsigned.rotation_keys,
      mapGet d.operation.unsigned.services "atproto_pds",
      C.fromPlcSignature d.operation.sig,
      C.fromPlcSignature d.signature,
      C.fromDid d.vk with
  | some vms, some rks, some pdsService, some opSig, some envSig, some vk =>
    some
      { id := d.did
        operation :=
          .CreateDID d.did vms rks d.operation.unsigned.also_known_as
            pdsService.endpoint opSig
        nonce := d.nonce
        signature := envSig
        vk := vk }
  | _, _, _, _, _, _ => none

/-- DAG-CBOR encoding of the unsigned wire transaction, the signing
payload of `verify_cbor_signature` (serde field names: did, operation,
nonce; the nonce is a u64). -/
def USDidTransaction.cborEncode (tx : USDidTransaction) : List Nat :=
  cborMap
    [("did", cborString tx.did),
     ("operation", tx.operation.cborEncode),
     ("nonce", cborUInt tx.nonce)]

/-- The interop verification path `Transaction::verify_cbor_signature`,
parameterized by the abstract signature verifier of the key capability
(`VerifyingKey::verify_signature` over message bytes). The source
converts with `.try_into().unwrap()`: the `Err` returned on a
non-CreateDID operation and the codec failures inside the conversion
both end the call without returning, modelled by `none`; only on the
`Ok` branch does the function produce a `Result` — verification of the
envelope signature against the canonical encoding of the unsigned wire
transaction. -/
def Transaction.verify_cbor_signature (C : KeyCodec K S)
    (verify : K → List Nat → S → Bool) (tx : Transaction K S) :
    Option (Except TransactionError Unit) :=
  match tx.try_into_did C with
  | none => none
  | some (.error _) => none
  | some (.ok didTx) =>
    let message := didTx.toUnsigned.cborEncode
    some (if verify tx.vk message tx.signature then .ok ()
          else .error .VerificationFailed)

/-! ## Concrete instances

Closed inputs used to exercise the definitions: keys and signatures are
instantiated with `Nat` (or `Bool` where a tiny invertible string codec
is wanted). -/

/-- A non-empty account holding the single rotation key 1. -/
def accC1 : Account Nat :=
  { did := "acc", nonce := 4, verification_methods := []
    rotation_keys := [1], also_known_as := [], services := [] }

/-- A transaction against `accC1` whose target id differs from the
account's and whose signing key 2 is not among its rotation keys. -/
def txC1 : Transaction Nat Nat :=
  { id := "other", operation := .AddKey 2, nonce := 4, signature := 0, vk := 2 }

/-- The account `accC1` after the code accepts `txC1`. -/
def accC1' : Account Nat :=
  { did := "acc", nonce := 5, verification_methods := []
    rotation_keys := [1, 2], also_known_as := [], services := [] }

/-- A non-empty account holding the single rotation key 7. -/
def accC2 : Account Nat :=
  { did := "acc", nonce := 1, verification_methods := []
    rotation_keys := [7], also_known_as := [], services := [] }

/-- An AddKey transaction against `accC2`, parameterized by its
signature bytes. -/
def txC2 (sig : Nat) : Transaction Nat Nat :=
  { id := "acc", operation := .AddKey 8, nonce := 1, signature := sig, vk := 7 }

/-- The account `accC2` after `txC2` is accepted. -/
def accC2' : Account Nat :=
  { did := "acc", nonce := 2, verification_methods := []
    rotation_keys := [7, 8], also_known_as := [], services := [] }

/-- The default (empty) account. -/
def accC3 : Account Nat :=
  { did := "", nonce := 0, verification_methods := []
    rotation_keys := [], also_known_as := [], services := [] }

/-- An AddKey transaction against the empty account at nonce 0. -/
def txC3 : Transaction Nat Nat :=
  { id := "", operation := .AddKey 5, nonce := 0, signature := 0, vk := 5 }

/-- The account `accC3` after `txC3` is accepted. -/
def accC3' : Account Nat :=
  { did := "", nonce := 1, verification_methods := []
    rotation_keys := [5], also_known_as := [], services := [] }

/-- A transaction with a stale nonce against `accC1`. -/
def txC4 : Transaction Nat Nat :=
  { id := "acc", operation := .AddKey 9, nonce := 0, signature := 0, vk := 1 }

/-- The CreateDID builder state after setting one rotation key. -/
def builderC5 : CreateDIDBuilder Nat :=
  CreateDIDBuilder.new.with_rotation_keys [1]

/-- A stand-in for the 32-byte content digest of the provisional
operation (`Digest::hash` and the key serde live outside the embedded
sources): the all-zero digest. The uppercase-versus-lowercase divergence
established about it holds for every digest value alike. -/
def digestC5 : BuilderCreateDIDOp Nat → List Nat :=
  fun _ => List.replicate 32 0

/-- The unsigned transaction `builderC5` emits under `digestC5`. -/
def utxC5 : UnsignedTx (BuilderCreateDIDOp Nat) :=
  { id := ""
    operation :=
      { did := "did:prism:AAAAAAAAAAAAAAAAAAAAAAAA"
        verification_methods := []
        rotation_keys := [1]
        also_known_as := []
        atproto_pds := "" }
    nonce := 0 }

/-- A tiny invertible key/signature codec over `Bool`. -/
def boolCodec : KeyCodec Bool Bool :=
  { toDid := fun k => some (if k then "did:key:t" else "did:key:f")
    fromDid := fun s =>
      if s = "did:key:t" then some true
      else if s = "did:key:f" then some false
      else none
    toPlcSignature := fun g => some (if g then "sigt" else "sigf")
    fromPlcSignature := fun s =>
      if s = "sigt" then some true
      else if s = "sigf" then some false
      else none }

/-- A CreateDID transaction whose envelope id "x" differs from its
operation's did "y". -/
def txC8 : Transaction Bool Bool :=
  { id := "x"
    operation := .CreateDID "y" [] [true] [] "pds" true
    nonce := 0
    signature := true
    vk := true }

/-- The interop record `txC8` converts to. -/
def didTxC8 : DidTransaction :=
  { did := "y"
    operation :=
      { unsigned := UnsignedPLCOp.new_genesis ["did:key:t"] [] [] "pds"
        sig := "sigt" }
    nonce := 0
    signature := "sigt"
    vk := "did:key:t" }

/-- The native transaction recovered from `didTxC8`: its id is the
operation's did "y", not the original "x". -/
def txC8' : Transaction Bool Bool :=
  { id := "y"
    operation := .CreateDID "y" [] [true] [] "pds" true
    nonce := 0
    signature := true
    vk := true }

/-- Native-to-interop-to-native round trip of `txC8`. -/
def roundtripC8 : Option (Transaction Bool Bool) :=
  match txC8.try_into_did boolCodec with
  | some (.ok d) => d.try_into_native boolCodec
  | _ => none

/-- An AddKey transaction over the `Bool` capability, for the interop
verification path. -/
def txC10 : Transaction Bool Bool :=
  { id := "acc", operation := .AddKey false, nonce := 0
    signature := true, vk := true }

/-- A signature verifier that accepts everything. -/
def verifyC10 : Bool → List Nat → Bool → Bool :=
  fun _ _ _ => true

/-- The builder-setter sequence used to exercise the C9 theorem. -/
def settersC9 : List (BuilderSetter Nat) :=
  [.rotationKeys [1]]

/-! ## General lemmas about the account state machine -/

variable [DecidableEq K]

/-- No mutation arm of `process_operation` touches the nonce; the
increment in `process_transaction` is the only write to it. -/
theorem apply_operation_nonce (a : Account K) (op : Operation K S) :
    (a.apply_operation op).nonce = a.nonce := by
  cases op <;> rfl

/-- When the transaction nonce mismatches, validation returns exactly the
nonce error carrying (transaction nonce, account nonce). -/
theorem validate_transaction_nonce_ne (a : Account K) (tx : Transaction K S)
    (h : tx.nonce ≠ a.nonce) :
    a.validate_transaction tx = .error (.NonceError tx.nonce a.nonce) := by
  simp [Account.validate_transaction, h]

/-- When the transaction nonce matches, validation never returns a nonce
error. -/
theorem validate_transaction_nonce_eq (a : Account K) (tx : Transaction K S)
    (h : tx.nonce = a.nonce) (m n : Nat) :
    a.validate_transaction tx ≠ .error (.NonceError m n) := by
  simp only [Account.validate_transaction, h, ne_eq, not_true_eq_false,
    if_false, ite_false]
  cases tx.operation <;> simp
  split_ifs <;> simp

/-- Operation-level validation never produces a nonce error. -/
theorem validate_operation_no_nonce (a : Account K) (op : Operation K S)
    (m n : Nat) :
    a.validate_operation op ≠ .error (.NonceError m n) := by
  cases op <;> simp [Account.validate_operation] <;> split_ifs <;> simp

/-- The two embeddings of `process_transaction` agree: the mutable-state
trace finishes without an error exactly when the `Except`-valued
embedding succeeds. -/
theorem process_transaction_mut_agrees (a : Account K)
    (tx : Transaction K S) :
    (a.process_transaction_mut tx).2 = none ↔
      ∃ b, a.process_transaction tx = .ok b := by
  unfold Account.process_transaction_mut Account.process_transaction
    Account.process_operation
  cases a.validate_transaction tx with
  | error e => simp
  | ok u =>
    cases u
    cases a.validate_operation tx.operation with
    | error e => simp
    | ok u => cases u; simp

/-- An error from `process_transaction` originates either in transaction
validation or in operation validation; the mutation itself cannot fail. -/
theorem process_transaction_error_elim (a : Account K) (tx : Transaction K S)
    (e : AccountError) (h : a.process_transaction tx = .error e) :
    a.validate_transaction tx = .error e ∨
      a.validate_operation tx.operation = .error e := by
  unfold Account.process_transaction Account.process_operation at h
  cases hv : a.validate_transaction tx with
  | error e2 =>
    simp only [hv, Except.error.injEq] at h
    exact Or.inl (by rw [h])
  | ok u =>
    cases u
    simp only [hv] at h
    cases hvo : a.validate_operation tx.operation with
    | error e2 =>
      simp only [hvo, Except.error.injEq] at h
      exact Or.inr (by rw [h])
    | ok u =>
      cases u
      simp only [hvo] at h
      simp at h

/-- A success of `process_transaction` factors into successful
validation, the operation mutation, and the final nonce increment. -/
theorem process_transaction_ok_elim (a : Account K) (tx : Transaction K S)
    (a' : Account K) (h : a.process_transaction tx = .ok a') :
    a.validate_transaction tx = .ok () ∧
      a.validate_operation tx.operation = .ok () ∧
      a' = { a.apply_operation tx.operation with
             nonce := (a.apply_operation tx.operation).nonce + 1 } := by
  unfold Account.process_transaction Account.process_operation at h
  cases hv : a.validate_transaction tx with
  | error e2 =>
    simp only [hv] at h
    exact Except.noConfusion h
  | ok u =>
    cases u
    simp only [hv] at h
    cases hvo : a.validate_operation tx.operation with
    | error e2 =>
      simp only [hvo] at h
      exact Except.noConfusion h
    | ok u =>
      cases u
      simp only [hvo, Except.ok.injEq] at h
      exact ⟨rfl, rfl, h.symm⟩

/-- A transaction that validates has the account's exact nonce. -/
theorem validate_transaction_ok_nonce (a : Account K) (tx : Transaction K S)
    (h : a.validate_transaction tx = .ok ()) : tx.nonce = a.nonce := by
  by_contra hne
  rw [validate_transaction_nonce_ne a tx hne] at h
  cases h

/-- C3: `process_transaction` rejects with `NonceError` exactly when the
transaction nonce differs from the account's current nonce (and a nonce
error arises in no other situation); every accepted transaction leaves the
nonce increased by exactly 1; consequently re-submitting an accepted
transaction fails with a nonce error. -/
theorem claim_C3_nonce_discipline (a : Account K) (tx : Transaction K S) :
    (tx.nonce ≠ a.nonce ↔
      a.process_transaction tx = .error (.NonceError tx.nonce a.nonce)) ∧
    (∀ m n, a.process_transaction tx = .error (.NonceError m n) →
      tx.nonce ≠ a.nonce) ∧
    (∀ a', a.process_transaction tx = .ok a' →
      a'.nonce = a.nonce + 1 ∧
      a'.process_transaction tx = .error (.NonceError tx.nonce a'.nonce)) := by
  have hno : ∀ m n, a.process_transaction tx = .error (.NonceError m n) →
      tx.nonce ≠ a.nonce := by
    intro m n h hne
    rcases process_transaction_error_elim a tx _ h with hv | hvo
    · exact validate_transaction_nonce_eq a tx hne m n hv
    · exact validate_operation_no_nonce a tx.operation m n hvo
  refine ⟨⟨fun h => ?_, fun h => hno _ _ h⟩, hno, fun a' h => ?_⟩
  · unfold Account.process_transaction
    rw [validate_transaction_nonce_ne a tx h]
  · obtain ⟨hv, -, ha'⟩ := process_transaction_ok_elim a tx a' h
    have hnonce := validate_transaction_ok_nonce a tx hv
    have hstep : a'.nonce = a.nonce + 1 := by
      rw [ha']
      simp [apply_operation_nonce a tx.operation]
    refine ⟨hstep, ?_⟩
    unfold Account.process_transaction
    rw [validate_transaction_nonce_ne a' tx (by omega)]

/-- C3 witness: the empty account accepts the AddKey transaction at
nonce 0, the nonce becomes 1, and the replay fails with the nonce
error. -/
theorem claim_C3_witness :
    accC3.process_transaction txC3 = .ok accC3' ∧
    accC3'.nonce = accC3.nonce + 1 ∧
    accC3'.process_transaction txC3 = .error (.NonceError 0 1) := by
  have happ : accC3.process_transaction txC3 = .ok accC3' := by decide
  have h := (claim_C3_nonce_discipline accC3 txC3).2.2 accC3' happ
  exact ⟨happ, h.1, h.2⟩

/-- C4: `process_transaction` is atomic — whenever the mutable-state
trace of the call ends in an error, the account left behind agrees with
the prior account on every field: did, nonce, rotation keys,
verification methods, aliases and services. -/
theorem claim_C4_atomicity (a : Account K) (tx : Transaction K S)
    (b : Account K) (e : AccountError)
    (h : a.process_transaction_mut tx = (b, some e)) :
    b.did = a.did ∧ b.nonce = a.nonce ∧
    b.rotation_keys = a.rotation_keys ∧
    b.verification_methods = a.verification_methods ∧
    b.also_known_as = a.also_known_as ∧
    b.services = a.services := by
  have hb : b = a := by
    revert h
    unfold Account.process_transaction_mut
    cases a.validate_transaction tx with
    | error e2 => intro h; cases h; rfl
    | ok u =>
      cases u
      cases a.validate_operation tx.operation with
      | error e2 => intro h; cases h; rfl
      | ok u => cases u; intro h; cases h
  simp [hb]

/-- C4 witness: the stale-nonce transaction `txC4` fails against `accC1`
and the trace leaves every field of the account unchanged. -/
theorem claim_C4_witness :
    accC1.process_transaction_mut txC4 =
      (accC1, some (.NonceError 0 4)) ∧
    accC1.did = "acc" ∧ accC1.nonce = 4 ∧ accC1.rotation_keys = [1] := by
  have htr : accC1.process_transaction_mut txC4 =
      (accC1, some (.NonceError 0 4)) := by decide
  have h := claim_C4_atomicity accC1 txC4 accC1 (.NonceError 0 4) htr
  exact ⟨htr, by decide, h.2.1 ▸ (by decide), h.2.2.1 ▸ (by decide)⟩

/-- C7 counterexample: an AddKey operation — not a creation operation —
passes operation-level validation on an empty account (the default
account has nonce 0), and the full `process_transaction` accepts it; so
it is false that on an empty account every operation other than a
creation operation fails. -/
theorem claim_C7_counterexample :
    accC3.is_empty = true ∧
    accC3.validate_operation (.AddKey 5 : Operation Nat Nat) = .ok () ∧
    accC3.process_transaction txC3 = .ok accC3' := by decide

/-- C7 amended: `validate_operation` rejects AddKey exactly when the key
is already a rotation key, RevokeKey exactly when it is not, and the two
creation operations exactly when the account is non-empty (nonce not 0);
on an empty account whose rotation-key set is empty (as in every
reachable empty account), RevokeKey fails — but AddKey of any key
succeeds, so a non-creation operation can succeed on an empty account. -/
theorem claim_C7_amended (a : Account K) (key : K) :
    (a.validate_operation (.AddKey key : Operation K S) =
        .error .KeyAlreadyExists ↔ key ∈ a.rotation_keys) ∧
    (a.validate_operation (.AddKey key : Operation K S) = .ok () ↔
      key ∉ a.rotation_keys) ∧
    (a.validate_operation (.RevokeKey key : Operation K S) =
        .error .KeyDoesNotExist ↔ key ∉ a.rotation_keys) ∧
    (a.validate_operation (.RevokeKey key : Operation K S) = .ok () ↔
      key ∈ a.rotation_keys) ∧
    (∀ i k, a.validate_operation (.CreateAccount i k : Operation K S) =
        .error .AccountAlreadyExists ↔ a.nonce ≠ 0) ∧
    (∀ d vms rks aka pds (sg : S),
      a.validate_operation (.CreateDID d vms rks aka pds sg) =
        .error .AccountAlreadyExists ↔ a.nonce ≠ 0) ∧
    (a.nonce = 0 → a.rotation_keys = [] →
      a.validate_operation (.RevokeKey key : Operation K S) =
          .error .KeyDoesNotExist ∧
      a.validate_operation (.AddKey key : Operation K S) = .ok ()) := by
  refine ⟨?_, ?_, ?_, ?_, ?_, ?_, ?_⟩
  · by_cases h : key ∈ a.rotation_keys <;>
      simp [Account.validate_operation, h]
  · by_cases h : key ∈ a.rotation_keys <;>
      simp [Account.validate_operation, h]
  · by_cases h : key ∈ a.rotation_keys <;>
      simp [Account.validate_operation, h]
  · by_cases h : key ∈ a.rotation_keys <;>
      simp [Account.validate_operation, h]
  · intro i k
    by_cases h : a.nonce = 0 <;>
      simp [Account.validate_operation, Account.is_empty, h]
  · intro d vms rks aka pds sg
    by_cases h : a.nonce = 0 <;>
      simp [Account.validate_operation, Account.is_empty, h]
  · intro h0 hkeys
    constructor
    · simp [Account.validate_operation, hkeys]
    · simp [Account.validate_operation, hkeys]

/-- C7 witness: on the empty account, RevokeKey of key 5 fails with the
missing-key error while AddKey of key 5 passes, via the amended claim. -/
theorem claim_C7_witness :
    accC3.validate_operation (.RevokeKey 5 : Operation Nat Nat) =
        .error .KeyDoesNotExist ∧
    accC3.validate_operation (.AddKey 5 : Operation Nat Nat) = .ok () := by
  exact (claim_C7_amended accC3 5).2.2.2.2.2.2 (by decide) (by decide)

/-- C1: contrary to the claim, the compiled `validate_transaction`
performs neither the transaction-id check nor the rotation-key membership
check for non-creation operations (both are commented out in the source):
the transaction `txC1`, whose target id differs from the account's id and
whose signing key is outside the rotation set, passes account-level
validation and is fully accepted by `process_transaction`, which even
adds the foreign key to the rotation set. -/
theorem claim_C1_code_accepts_foreign_key :
    txC1.id ≠ accC1.did ∧
    txC1.vk ∉ accC1.rotation_keys ∧
    accC1.validate_transaction txC1 = .ok () ∧
    accC1.process_transaction txC1 = .ok accC1' ∧
    accC1'.rotation_keys = [1, 2] := by decide

/-- C2: contrary to the claim, `process_transaction` never verifies the
cryptographic signature (the `tx.verify_signature()` call is commented
out in the source): its result does not depend on the signature field at
all, and the concrete AddKey transaction is accepted whatever its
signature bytes are — in particular with signature bytes that no
verifier accepts. -/
theorem claim_C2_signature_never_checked :
    (∀ (a : Account Nat) (tx : Transaction Nat Nat) (s1 s2 : Nat),
      a.process_transaction { tx with signature := s1 } =
        a.process_transaction { tx with signature := s2 }) ∧
    (∀ sig : Nat, accC2.process_transaction (txC2 sig) = .ok accC2') := by
  constructor
  · intro a tx s1 s2
    rfl
  · intro sig
    rfl

set_option maxRecDepth 100000 in
/-- C6: `SignedPLCOp::derive_did` — content hash of the canonical
DAG-CBOR serialization of the signed record, lowercase unpadded RFC 4648
base32, first 24 characters, prefixed with did:prism: — yields exactly
the documented identifier on the fixed test vector of `tests/mod.rs`
(two rotation DID-keys, the atproto verification method, the alias
at://mod-authority.test, the PDS endpoint http://localhost:65473 and the
given base64url signature). Being a function of the record, re-derivation
on the same inputs reproduces the identifier. -/
theorem claim_C6_derive_did_test_vector :
    testVectorPLC.derive_did = "did:prism:3l3bnfketdgiqyfxjju4pfda" := by
  decide

set_option maxRecDepth 100000 in
/-- Corroboration of the same encoding pipeline on the second pinned
vector, from `plc_signature_verification` in `tests/mod.rs`. -/
theorem derive_did_second_vector :
    testVectorPLC2.derive_did = "did:prism:moipkdqlz5x3qjmdqjwa6zsk" := by
  decide

omit [DecidableEq K] in
/-- No setter of the CreateDID builder writes the did field: any setter
sequence applied to a fresh builder leaves it empty. -/
theorem applySetters_did (ss : List (BuilderSetter K)) :
    ((CreateDIDBuilder.new : CreateDIDBuilder K).applySetters ss).did = "" := by
  suffices h : ∀ (b : CreateDIDBuilder K), (b.applySetters ss).did = b.did by
    exact h CreateDIDBuilder.new
  induction ss with
  | nil => intro b; rfl
  | cons s rest ih =>
    intro b
    cases s <;> simp [CreateDIDBuilder.applySetters, ih,
      CreateDIDBuilder.with_verification_method,
      CreateDIDBuilder.with_rotation_keys,
      CreateDIDBuilder.with_also_known_as,
      CreateDIDBuilder.with_atproto_pds]

omit [DecidableEq K] in
/-- C9: for every setter sequence and every digest function, a
successful `build()` emits an unsigned transaction whose id is the empty
string (the builder's never-written did field), while the embedded
operation carries the derived did:prism: identifier — so the
transaction's id never equals the operation's did. -/
theorem claim_C9_empty_transaction_id (ss : List (BuilderSetter K))
    (opDigest : BuilderCreateDIDOp K → List Nat)
    (utx : UnsignedTx (BuilderCreateDIDOp K))
    (h : ((CreateDIDBuilder.new : CreateDIDBuilder K).applySetters ss).build
        opDigest = .ok utx) :
    utx.id = "" ∧
    (∃ s, utx.operation.did = "did:prism:" ++ s) ∧
    utx.operation.did ≠ utx.id := by
  have hdid := applySetters_did (K := K) ss
  unfold CreateDIDBuilder.build at h
  dsimp only at h
  split at h
  · exact Except.noConfusion h
  · simp only [Except.ok.injEq] at h
    subst h
    refine ⟨hdid, ⟨_, rfl⟩, ?_⟩
    rw [hdid]
    intro hcontra
    have hlen := congrArg String.length hcontra
    rw [String.length_append] at hlen
    simp at hlen
    exact absurd hlen.1 (by decide)

/-- C9 witness: with one rotation key set and the all-zero stand-in
digest, the build succeeds and emits `utxC5`, whose id is empty and
differs from the operation's derived did. -/
theorem claim_C9_witness :
    utxC5.id = "" ∧ (∃ s, utxC5.operation.did = "did:prism:" ++ s) ∧
    utxC5.operation.did ≠ utxC5.id := by
  exact claim_C9_empty_transaction_id settersC9 digestC5 utxC5 (by decide)

/-- C5: contrary to the claim, the builder's derivation does not follow
the section-4.3 algorithm: on a 32-byte digest the emitted did's 24
derived characters come from the UPPERCASE-alphabet `encode_base32` of
`builder.rs` (here, all letters A on the all-zero digest), which differs
from the lowercase RFC 4648 base32 encoding of the very same digest
bytes that section 4.3 prescribes; the provisional-operation
construction and the `validate_basic` call do follow the claim. -/
theorem claim_C5_uppercase_derivation :
    builderC5.build digestC5 = .ok utxC5 ∧
    utxC5.operation.did = "did:prism:AAAAAAAAAAAAAAAAAAAAAAAA" ∧
    String.mk ((base32Rfc4648Lower
        (digestC5 utxC5.operation)).data.take 24) =
      "aaaaaaaaaaaaaaaaaaaaaaaa" ∧
    ("did:prism:AAAAAAAAAAAAAAAAAAAAAAAA" : String) ≠
      "did:prism:" ++ "aaaaaaaaaaaaaaaaaaaaaaaa" := by decide

/-- Traversal round trip: if parsing inverts rendering elementwise, it
inverts the rendered list. -/
theorem traverseOption_roundtrip {α β : Type} (f : α → Option β)
    (g : β → Option α) (hfg : ∀ x y, f x = some y → g y = some x) :
    ∀ (l : List α) (l' : List β), traverseOption f l = some l' →
      traverseOption g l' = some l := by
  intro l
  induction l with
  | nil =>
    intro l' h
    simp only [traverseOption, Option.some.injEq] at h
    subst h
    rfl
  | cons x rest ih =>
    intro l' h
    unfold traverseOption at h
    cases hf : f x with
    | none => rw [hf] at h; simp at h
    | some y =>
      rw [hf] at h
      cases hr : traverseOption f rest with
      | none => rw [hr] at h; simp at h
      | some ys =>
        rw [hr] at h
        simp only [Option.some.injEq] at h
        subst h
        unfold traverseOption
        simp [hfg x y hf, ih ys hr]

/-- Pairwise traversal round trip over association lists. -/
theorem traversePairs_roundtrip {α β : Type} (f : α → Option β)
    (g : β → Option α) (hfg : ∀ x y, f x = some y → g y = some x) :
    ∀ (l : List (String × α)) (l' : List (String × β)),
      traversePairs f l = some l' → traversePairs g l' = some l := by
  intro l
  induction l with
  | nil =>
    intro l' h
    simp only [traversePairs, Option.some.injEq] at h
    subst h
    rfl
  | cons p rest ih =>
    intro l' h
    unfold traversePairs at h
    cases hf : f p.2 with
    | none => rw [hf] at h; simp at h
    | some y =>
      rw [hf] at h
      cases hr : traversePairs f rest with
      | none => rw [hr] at h; simp at h
      | some ys =>
        rw [hr] at h
        simp only [Option.some.injEq] at h
        subst h
        unfold traversePairs
        simp [hfg p.2 y hf, ih ys hr]

/-- C8 counterexample: the round trip does not preserve the transaction
id — `txC8` has envelope id "x" but its operation's did is "y", and the
recovered transaction's id is "y". -/
theorem claim_C8_counterexample :
    roundtripC8 = some txC8' ∧ txC8'.id = "y" ∧ txC8.id = "x" ∧
    txC8'.id ≠ txC8.id := by decide

omit [DecidableEq K] in
/-- C8 amended: for a CreateDID transaction whose keys and signature are
representable (witnessed by the conversions succeeding) under a codec
whose parser inverts its renderer, the interop round trip preserves the
operation (did, verification methods, rotation keys in order, aliases,
PDS endpoint, embedded signature), the nonce and the verifying key, and
sets the recovered transaction's id to the OPERATION's did — so the
envelope id is preserved exactly when it already equals the operation's
did. -/
theorem claim_C8_amended (C : KeyCodec K S)
    (hkey : ∀ k s, C.toDid k = some s → C.fromDid s = some k)
    (hsig : ∀ g s, C.toPlcSignature g = some s → C.fromPlcSignature s = some g)
    (tx : Transaction K S) (d : DidTransaction) (tx' : Transaction K S)
    (did : String) (vms : List (String × K)) (rks : List K)
    (aka : List String) (pds : String) (sg : S)
    (hop : tx.operation = .CreateDID did vms rks aka pds sg)
    (h1 : tx.try_into_did C = some (.ok d))
    (h2 : d.try_into_native C = some tx') :
    tx'.id = did ∧
    tx'.operation = Operation.CreateDID did vms rks aka pds sg ∧
    tx'.nonce = tx.nonce ∧ tx'.vk = tx.vk ∧
    (tx.id = did → tx'.id = tx.id) := by
  unfold Transaction.try_into_did at h1
  rw [hop] at h1
  dsimp only at h1
  cases hvm : traversePairs C.toDid vms with
  | none => rw [hvm] at h1; simp at h1
  | some vms' =>
  cases hrk : traverseOption C.toDid rks with
  | none => rw [hvm, hrk] at h1; simp at h1
  | some rks' =>
  cases hpl : C.toPlcSignature sg with
  | none => rw [hvm, hrk, hpl] at h1; simp at h1
  | some plcSig =>
  cases hvk : C.toDid tx.vk with
  | none => rw [hvm, hrk, hpl, hvk] at h1; simp at h1
  | some vk' =>
  rw [hvm, hrk, hpl, hvk] at h1
  simp only [Option.some.injEq, Except.ok.injEq] at h1
  subst h1
  unfold DidTransaction.try_into_native at h2
  simp only [UnsignedPLCOp.new_genesis] at h2
  rw [traversePairs_roundtrip C.toDid C.fromDid hkey vms vms' hvm,
    traverseOption_roundtrip C.toDid C.fromDid hkey rks rks' hrk] at h2
  simp only [mapGet, if_pos] at h2
  rw [hsig sg plcSig hpl, hkey tx.vk vk' hvk] at h2
  simp only [Option.some.injEq] at h2
  subst h2
  simp [Service.new_pds]
  exact fun h => h.symm

omit [DecidableEq K] in
/-- Choosing the witnesses of an existential over the fields of a fixed
CreateDID operation. -/
theorem exists_createdid_iff (d : String) (vms : List (String × K))
    (rks : List K) (aka : List String) (pds : String) (sg : S)
    (P : String → List (String × K) → List K → List String → String → S →
      Prop) :
    (∃ d' vms' rks' aka' pds' sg',
      (Operation.CreateDID d vms rks aka pds sg : Operation K S) =
        Operation.CreateDID d' vms' rks' aka' pds' sg' ∧
      P d' vms' rks' aka' pds' sg') ↔
    P d vms rks aka pds sg := by
  constructor
  · rintro ⟨d', vms', rks', aka', pds', sg', heq, hp⟩
    injection heq with h1 h2 h3 h4 h5 h6
    subst h1; subst h2; subst h3; subst h4; subst h5; subst h6
    exact hp
  · intro hp
    exact ⟨d, vms, rks, aka, pds, sg, rfl, hp⟩

omit [DecidableEq K] in
/-- C10: the interop verification path is partial — on every AddKey,
RevokeKey or CreateAccount transaction the internal conversion yields the
invalid-operation error, which the source immediately unwraps, ending the
call without a returned Result (modelled as none); the call returns a
Result exactly on CreateDID transactions whose verification-method keys,
rotation keys, embedded signature and envelope verifying key all convert
to their string forms. -/
theorem claim_C10_verify_cbor_partiality (C : KeyCodec K S)
    (verify : K → List Nat → S → Bool) (tx : Transaction K S) :
    ((∃ k, tx.operation = .AddKey k) ∨ (∃ k, tx.operation = .RevokeKey k) ∨
        (∃ i k, tx.operation = .CreateAccount i k) →
      tx.try_into_did C = some (.error .InvalidOperation) ∧
      tx.verify_cbor_signature C verify = none) ∧
    ((tx.verify_cbor_signature C verify).isSome = true ↔
      ∃ did vms rks aka pds sg,
        tx.operation = Operation.CreateDID did vms rks aka pds sg ∧
        (traversePairs C.toDid vms).isSome = true ∧
        (traverseOption C.toDid rks).isSome = true ∧
        (C.toPlcSignature sg).isSome = true ∧
        (C.toDid tx.vk).isSome = true) := by
  obtain ⟨tid, op, nonce, sig, vk⟩ := tx
  cases op with
  | CreateAccount i k =>
    refine ⟨fun _ => ⟨rfl, rfl⟩, ?_⟩
    simp [Transaction.verify_cbor_signature, Transaction.try_into_did]
  | AddKey k =>
    refine ⟨fun _ => ⟨rfl, rfl⟩, ?_⟩
    simp [Transaction.verify_cbor_signature, Transaction.try_into_did]
  | RevokeKey k =>
    refine ⟨fun _ => ⟨rfl, rfl⟩, ?_⟩
    simp [Transaction.verify_cbor_signature, Transaction.try_into_did]
  | CreateDID d vms rks aka pds sg =>
    constructor
    · rintro (⟨k, hk⟩ | ⟨k, hk⟩ | ⟨i, k, hk⟩) <;> exact Operation.noConfusion hk
    · rw [exists_createdid_iff]
      cases hvm : traversePairs C.toDid vms <;>
        cases hrk : traverseOption C.toDid rks <;>
        cases hpl : C.toPlcSignature sg <;>
        cases hvk : C.toDid vk <;>
        simp [Transaction.verify_cbor_signature, Transaction.try_into_did,
          hvm, hrk, hpl, hvk]

/-- The Bool key codec's parser inverts its renderer. -/
theorem boolCodec_key_roundtrip :
    ∀ k s, boolCodec.toDid k = some s → boolCodec.fromDid s = some k := by
  intro k s h
  cases k <;> simp [boolCodec] at h <;> subst h <;> decide

/-- The Bool signature codec's parser inverts its renderer. -/
theorem boolCodec_sig_roundtrip :
    ∀ g s, boolCodec.toPlcSignature g = some s →
      boolCodec.fromPlcSignature s = some g := by
  intro g s h
  cases g <;> simp [boolCodec] at h <;> subst h <;> decide

/-- C8 witness: the round trip of the concrete CreateDID transaction
`txC8` under the Bool codec preserves the operation, nonce and verifying
key, and sets the recovered id to the operation's did "y". -/
theorem claim_C8_witness :
    txC8'.id = "y" ∧
    txC8'.operation = Operation.CreateDID "y" [] [true] [] "pds" true ∧
    txC8'.nonce = txC8.nonce ∧ txC8'.vk = txC8.vk ∧
    (txC8.id = "y" → txC8'.id = txC8.id) := by
  exact claim_C8_amended boolCodec boolCodec_key_roundtrip
    boolCodec_sig_roundtrip txC8 didTxC8 txC8' "y" [] [true] [] "pds" true
    (by decide) (by decide) (by decide)

/-- C10 witness: the concrete AddKey transaction makes the conversion
return the invalid-operation error and the interop verification call die
without a Result. -/
theorem claim_C10_witness :
    txC10.try_into_did boolCodec = some (.error .InvalidOperation) ∧
    txC10.verify_cbor_signature boolCodec verifyC10 = none := by
  exact (claim_C10_verify_cbor_partiality boolCodec verifyC10 txC10).1
    (Or.inl ⟨false, rfl⟩)

end PrismDid
